import Mathlib

/-!
Shallow embedding of the statistics-processing service (`src/app.py`).

Modelling conventions:
- Timestamps are seconds since the Unix epoch, as `Nat`; the code only
  formats and compares them, so the textual `"%Y-%m-%d %H:%M:%S"` round
  trip is modelled by the number itself.  The default checkpoint
  `"2000-01-01 00:00:00"` is `epoch2000 = 946684800`.
- JSON numeric measurements are modelled over `Int`; the comparisons the
  code performs (`max`, `min`) agree with the integer order.  The
  `float("inf")` sentinel stored in the two `min_*` fields is `⊤` in
  `WithTop Int` (Python `min(inf, x) = x`, matching `min ⊤ x = x`).
- An event of a category is represented by the value of the one
  measurement field the code reads from it (`event.get("flight_duration")`
  resp. `event.get("luggage_weight")`): `Option Int`, `none` when the
  field is absent.
- The JSON stats file is `Option StatsRecord` (`none` = file absent).
- `httpx.get` raising (transport error), and `response.json()` raising
  on an undecodable body, are modelled by `Except Unit`: `populate_stats`
  returns `.error ()` exactly when the Python function propagates an
  exception, in which case the stats file is left untouched.
-/

namespace App

/-- Seconds since the Unix epoch, UTC, second precision. -/
abbrev Timestamp := Nat

/-- One decoded event of a category: the value of the measurement field
the code reads from it, `none` when the field is missing. -/
abbrev Event := Option Int

/-- The persisted statistics document (`src/app.py` lines 34-42 give the
fields and their defaults). -/
structure StatsRecord where
  num_flight_schedules : Nat
  num_passenger_checkins : Nat
  max_luggage_weight : Int
  min_luggage_weight : WithTop Int
  max_flight_duration : Int
  min_flight_duration : WithTop Int
  last_updated : Timestamp
deriving DecidableEq

/-- `"2000-01-01 00:00:00"` UTC as epoch seconds. -/
def epoch2000 : Timestamp := 946684800

/-- `DEFAULT_STATS` from `src/app.py` lines 34-42: counters zero, the two
max extrema `0`, the two min extrema the `float("inf")` sentinel, and
`last_updated` at the 2000-01-01 epoch. -/
def DEFAULT_STATS : StatsRecord :=
  { num_flight_schedules := 0
    num_passenger_checkins := 0
    max_luggage_weight := 0
    min_luggage_weight := ⊤
    max_flight_duration := 0
    min_flight_duration := ⊤
    last_updated := epoch2000 }

/-- `read_existing_stats` (`src/app.py` lines 47-52): the persisted
record when the stats file exists, a copy of `DEFAULT_STATS` otherwise. -/
def read_existing_stats (store : Option StatsRecord) : StatsRecord :=
  store.getD DEFAULT_STATS

/-- `write_stats` (`src/app.py` lines 54-57): replaces the whole stats
file with the given record. -/
def write_stats (stats : StatsRecord) : Option StatsRecord :=
  some stats

/-- Outcome of one `httpx.get` call: either an HTTP response (with its
status code, and `some batch` when the body decodes as JSON, `none` when
`response.json()` would raise), or a transport-level failure, on which
`httpx.get` itself raises. -/
inductive FetchOutcome where
  | response (status : Nat) (body : Option (List Event))
  | transportError
deriving DecidableEq

/-- The per-category fetch block of `populate_stats` (`src/app.py`
lines 107-121): events start as `[]`; on a response with status exactly
`200` the body is decoded and used; on any other status the failure is
logged and the empty list kept.  A transport error (raised by
`httpx.get`) or a decode error on a 200 body (raised by
`response.json()`) propagates as an exception. -/
def getEvents : FetchOutcome → Except Unit (List Event)
  | .transportError => .error ()
  | .response status body =>
      if status = 200 then
        match body with
        | some events => .ok events
        | none => .error ()
      else
        .ok []

/-- One step of the flight-duration loop (`src/app.py` lines 128-132):
events missing the field are skipped; otherwise running max/min updated. -/
def updateFlightExtrema (stats : StatsRecord) (event : Event) : StatsRecord :=
  match event with
  | none => stats
  | some duration =>
      { stats with
        max_flight_duration := max stats.max_flight_duration duration
        min_flight_duration := min stats.min_flight_duration (duration : WithTop Int) }

/-- One step of the luggage-weight loop (`src/app.py` lines 135-139). -/
def updateCheckinExtrema (stats : StatsRecord) (event : Event) : StatsRecord :=
  match event with
  | none => stats
  | some weight =>
      { stats with
        max_luggage_weight := max stats.max_luggage_weight weight
        min_luggage_weight := min stats.min_luggage_weight (weight : WithTop Int) }

/-- The straight-line fold section of `populate_stats` (`src/app.py`
lines 123-142): add the batch lengths to the counters, run the two
extrema loops, then set `last_updated` to the window end `now`. -/
def apply_batches (stats : StatsRecord) (flight_events checkin_events : List Event)
    (now : Timestamp) : StatsRecord :=
  let s1 : StatsRecord :=
    { stats with
      num_flight_schedules := stats.num_flight_schedules + flight_events.length
      num_passenger_checkins := stats.num_passenger_checkins + checkin_events.length }
  let s2 := flight_events.foldl updateFlightExtrema s1
  let s3 := checkin_events.foldl updateCheckinExtrema s2
  { s3 with last_updated := now }

/-- `populate_stats` (`src/app.py` lines 80-147) for one cycle, given the
current stats file, the outcome of each of the two fetches (flight first,
as in the code), and the wall-clock window end `now`.  Returns the new
content of the stats file, or `.error ()` when the Python function
propagates an exception (in which case `write_stats` is never reached). -/
def populate_stats (store : Option StatsRecord) (flightOut checkinOut : FetchOutcome)
    (now : Timestamp) : Except Unit (Option StatsRecord) :=
  let stats := read_existing_stats store
  match getEvents flightOut with
  | .error e => .error e
  | .ok flight_events =>
      match getEvents checkinOut with
      | .error e => .error e
      | .ok checkin_events =>
          .ok (write_stats (apply_batches stats flight_events checkin_events now))

/-- The inputs of one scheduler-triggered cycle: the two fetch outcomes
and the wall-clock time read at the start of the cycle. -/
structure Cycle where
  flightOut : FetchOutcome
  checkinOut : FetchOutcome
  now : Timestamp
deriving DecidableEq

/-- Effect of one cycle on the stats file: the file written by
`populate_stats`, or the unchanged file when the cycle raises (the
scheduler swallows the exception; nothing was written). -/
def runCycle (store : Option StatsRecord) (c : Cycle) : Option StatsRecord :=
  match populate_stats store c.flightOut c.checkinOut c.now with
  | .ok newStore => newStore
  | .error _ => store

/-- Effect of a sequence of cycles on the stats file. -/
def runCycles (store : Option StatsRecord) (cycles : List Cycle) : Option StatsRecord :=
  cycles.foldl runCycle store

/-- Number of flight events actually folded in during a cycle: the
decoded batch length when the whole cycle completes, `0` when the cycle
raises (non-200 statuses contribute an empty batch, hence `0`). -/
def flightFolded (c : Cycle) : Nat :=
  match getEvents c.flightOut, getEvents c.checkinOut with
  | .ok flight_events, .ok _ => flight_events.length
  | _, _ => 0

/-- Number of check-in events actually folded in during a cycle. -/
def checkinFolded (c : Cycle) : Nat :=
  match getEvents c.flightOut, getEvents c.checkinOut with
  | .ok _, .ok checkin_events => checkin_events.length
  | _, _ => 0

/-- Scalar view of the running-max loop: one step. -/
def stepMax (acc : Int) (event : Event) : Int :=
  match event with
  | none => acc
  | some d => max acc d

/-- Scalar view of the running-min loop: one step. -/
def stepMin (acc : WithTop Int) (event : Event) : WithTop Int :=
  match event with
  | none => acc
  | some d => min acc (d : WithTop Int)

/-- Scalar view of the running-max loop over a batch. -/
def foldMax (acc : Int) (events : List Event) : Int :=
  events.foldl stepMax acc

/-- Scalar view of the running-min loop over a batch. -/
def foldMin (acc : WithTop Int) (events : List Event) : WithTop Int :=
  events.foldl stepMin acc

/-! ### Characterization of the record-level folds by the scalar folds -/

/-- The flight loop only rewrites the two flight-duration extrema, by the
scalar folds; every other field is passed through unchanged. -/
lemma foldl_updateFlightExtrema (events : List Event) (stats : StatsRecord) :
    events.foldl updateFlightExtrema stats =
      { stats with
        max_flight_duration := foldMax stats.max_flight_duration events
        min_flight_duration := foldMin stats.min_flight_duration events } := by
  induction events generalizing stats with
  | nil => rfl
  | cons e l ih =>
      cases e with
      | none =>
          simp only [List.foldl_cons]
          rw [show updateFlightExtrema stats none = stats from rfl, ih]
          rfl
      | some d =>
          simp only [List.foldl_cons]
          rw [ih]
          rfl

/-- The check-in loop only rewrites the two luggage-weight extrema, by
the scalar folds; every other field is passed through unchanged. -/
lemma foldl_updateCheckinExtrema (events : List Event) (stats : StatsRecord) :
    events.foldl updateCheckinExtrema stats =
      { stats with
        max_luggage_weight := foldMax stats.max_luggage_weight events
        min_luggage_weight := foldMin stats.min_luggage_weight events } := by
  induction events generalizing stats with
  | nil => rfl
  | cons e l ih =>
      cases e with
      | none =>
          simp only [List.foldl_cons]
          rw [show updateCheckinExtrema stats none = stats from rfl, ih]
          rfl
      | some d =>
          simp only [List.foldl_cons]
          rw [ih]
          rfl

/-- Closed form of the fold section of `populate_stats`: counters grow by
the batch lengths, each category's extrema are the scalar folds over its
own batch, and `last_updated` becomes the window end. -/
lemma apply_batches_eq (stats : StatsRecord) (flight_events checkin_events : List Event)
    (now : Timestamp) :
    apply_batches stats flight_events checkin_events now =
      { num_flight_schedules := stats.num_flight_schedules + flight_events.length
        num_passenger_checkins := stats.num_passenger_checkins + checkin_events.length
        max_luggage_weight := foldMax stats.max_luggage_weight checkin_events
        min_luggage_weight := foldMin stats.min_luggage_weight checkin_events
        max_flight_duration := foldMax stats.max_flight_duration flight_events
        min_flight_duration := foldMin stats.min_flight_duration flight_events
        last_updated := now } := by
  simp only [apply_batches, foldl_updateFlightExtrema, foldl_updateCheckinExtrema]

/-! ### Order facts about the scalar folds -/

/-- The running max never decreases below its seed. -/
lemma le_foldMax (events : List Event) (acc : Int) : acc ≤ foldMax acc events := by
  induction events generalizing acc with
  | nil => exact le_refl acc
  | cons e l ih =>
      refine le_trans ?_ (ih (stepMax acc e))
      cases e with
      | none => exact le_refl acc
      | some d => exact le_max_left acc d

/-- Every measurement in the batch is bounded by the resulting max. -/
lemma mem_le_foldMax (events : List Event) (acc : Int) (d : Int)
    (hd : some d ∈ events) : d ≤ foldMax acc events := by
  induction events generalizing acc with
  | nil => cases hd
  | cons e l ih =>
      rcases List.mem_cons.mp hd with he | hl
      · subst he
        exact le_trans (le_max_right acc d) (le_foldMax l (stepMax acc (some d)))
      · exact ih (stepMax acc e) hl

/-- A seed already above every measurement in the batch is unchanged. -/
lemma foldMax_eq_of_le (events : List Event) (acc : Int)
    (h : ∀ d : Int, some d ∈ events → d ≤ acc) : foldMax acc events = acc := by
  induction events with
  | nil => rfl
  | cons e l ih =>
      cases e with
      | none => exact ih (fun d hd => h d (List.mem_cons_of_mem _ hd))
      | some d =>
          have hstep : stepMax acc (some d) = acc :=
            max_eq_left (h d (List.mem_cons_self _ _))
          show foldMax (stepMax acc (some d)) l = acc
          rw [hstep]
          exact ih (fun d hd => h d (List.mem_cons_of_mem _ hd))

/-- The running min never increases above its seed. -/
lemma foldMin_le (events : List Event) (acc : WithTop Int) : foldMin acc events ≤ acc := by
  induction events generalizing acc with
  | nil => exact le_refl acc
  | cons e l ih =>
      refine le_trans (ih (stepMin acc e)) ?_
      cases e with
      | none => exact le_refl acc
      | some d => exact min_le_left acc d

/-- The resulting min is bounded by every measurement in the batch. -/
lemma foldMin_le_mem (events : List Event) (acc : WithTop Int) (d : Int)
    (hd : some d ∈ events) : foldMin acc events ≤ (d : WithTop Int) := by
  induction events generalizing acc with
  | nil => cases hd
  | cons e l ih =>
      rcases List.mem_cons.mp hd with he | hl
      · subst he
        exact le_trans (foldMin_le l (stepMin acc (some d))) (min_le_right acc d)
      · exact ih (stepMin acc e) hl

/-- A seed already below every measurement in the batch is unchanged. -/
lemma foldMin_eq_of_le (events : List Event) (acc : WithTop Int)
    (h : ∀ d : Int, some d ∈ events → acc ≤ (d : WithTop Int)) : foldMin acc events = acc := by
  induction events with
  | nil => rfl
  | cons e l ih =>
      cases e with
      | none => exact ih (fun d hd => h d (List.mem_cons_of_mem _ hd))
      | some d =>
          have hstep : stepMin acc (some d) = acc :=
            min_eq_left (h d (List.mem_cons_self _ _))
          show foldMin (stepMin acc (some d)) l = acc
          rw [hstep]
          exact ih (fun d hd => h d (List.mem_cons_of_mem _ hd))

/-- Refolding the same batch leaves the running max where it was. -/
lemma foldMax_idem (events : List Event) (acc : Int) :
    foldMax (foldMax acc events) events = foldMax acc events :=
  foldMax_eq_of_le events _ (fun d hd => mem_le_foldMax events acc d hd)

/-- Refolding the same batch leaves the running min where it was. -/
lemma foldMin_idem (events : List Event) (acc : WithTop Int) :
    foldMin (foldMin acc events) events = foldMin acc events :=
  foldMin_eq_of_le events _ (fun d hd => foldMin_le_mem events acc d hd)

/-! ### Per-cycle facts -/

/-- One cycle grows each counter by exactly the number of events folded
in for that category (0 when the cycle raised). -/
lemma runCycle_counts (store : Option StatsRecord) (c : Cycle) :
    (read_existing_stats (runCycle store c)).num_flight_schedules
        = (read_existing_stats store).num_flight_schedules + flightFolded c
      ∧ (read_existing_stats (runCycle store c)).num_passenger_checkins
        = (read_existing_stats store).num_passenger_checkins + checkinFolded c := by
  unfold runCycle populate_stats flightFolded checkinFolded
  cases hf : getEvents c.flightOut with
  | error e => simp
  | ok flight_events =>
      cases hc : getEvents c.checkinOut with
      | error e => simp
      | ok checkin_events =>
          simp [write_stats, read_existing_stats, apply_batches_eq]

/-- Unfolding one cycle off the front of a cycle sequence. -/
lemma runCycles_cons (store : Option StatsRecord) (c : Cycle) (cs : List Cycle) :
    runCycles store (c :: cs) = runCycles (runCycle store c) cs :=
  rfl

/-- When `populate_stats` completes (returns `.ok`), the record it wrote
carries `last_updated = now`, whatever the two fetch outcomes were. -/
lemma populate_stats_ok_last (store : Option StatsRecord) (flightOut checkinOut : FetchOutcome)
    (now : Timestamp) (newStore : Option StatsRecord)
    (h : populate_stats store flightOut checkinOut now = Except.ok newStore) :
    (read_existing_stats newStore).last_updated = now := by
  unfold populate_stats at h
  cases hf : getEvents flightOut with
  | error e =>
      simp only [hf] at h
      exact Except.noConfusion h
  | ok flight_events =>
      simp only [hf] at h
      cases hc : getEvents checkinOut with
      | error e =>
          simp only [hc] at h
          exact Except.noConfusion h
      | ok checkin_events =>
          simp only [hc, Except.ok.injEq] at h
          subst h
          simp [read_existing_stats, write_stats, apply_batches_eq]

end App

namespace App

/-! ### Claims -/

/-- Claim C3: across every sequence of cycles, `num_flight_schedules`
and `num_passenger_checkins` are monotonically non-decreasing, and each
final counter equals its initial value plus the sum of the lengths of
the batches folded in for that category (a failed fetch, or a cycle
aborted by an exception, contributing length 0). -/
theorem C3 (store : Option StatsRecord) (cycles : List Cycle) :
    ((read_existing_stats (runCycles store cycles)).num_flight_schedules
        = (read_existing_stats store).num_flight_schedules + (cycles.map flightFolded).sum)
      ∧ ((read_existing_stats (runCycles store cycles)).num_passenger_checkins
        = (read_existing_stats store).num_passenger_checkins + (cycles.map checkinFolded).sum)
      ∧ (read_existing_stats store).num_flight_schedules
        ≤ (read_existing_stats (runCycles store cycles)).num_flight_schedules
      ∧ (read_existing_stats store).num_passenger_checkins
        ≤ (read_existing_stats (runCycles store cycles)).num_passenger_checkins := by
  induction cycles generalizing store with
  | nil =>
      simp [runCycles]
  | cons c cs ih =>
      obtain ⟨h1f, h1c⟩ := runCycle_counts store c
      obtain ⟨h2f, h2c, _, _⟩ := ih (runCycle store c)
      rw [runCycles_cons, List.map_cons, List.map_cons, List.sum_cons, List.sum_cons]
      refine ⟨?_, ?_, ?_, ?_⟩ <;> omega

/-- Claim C4: whenever a cycle runs to completion, the persisted
`last_updated` equals the window end `now` computed at the start of the
cycle, regardless of the outcome of either fetch; consequently, given
that the wall clock has not run backwards (the stored checkpoint is at
most `now`), the persisted `last_updated` never decreases across a
cycle, whether or not the cycle completed. -/
theorem C4 (store : Option StatsRecord) (flightOut checkinOut : FetchOutcome) (now : Timestamp) :
    (∀ newStore : Option StatsRecord,
        populate_stats store flightOut checkinOut now = Except.ok newStore →
          (read_existing_stats newStore).last_updated = now)
      ∧ ((read_existing_stats store).last_updated ≤ now →
          (read_existing_stats store).last_updated
            ≤ (read_existing_stats (runCycle store ⟨flightOut, checkinOut, now⟩)).last_updated) := by
  constructor
  · exact fun newStore h => populate_stats_ok_last store flightOut checkinOut now newStore h
  · intro hle
    unfold runCycle
    cases hp : populate_stats store flightOut checkinOut now with
    | error e => exact le_refl _
    | ok newStore =>
        rw [populate_stats_ok_last store flightOut checkinOut now newStore hp]
        exact hle

/-- Witness for C4 at a concrete cycle: both fetches fail with non-200
statuses, yet the completed cycle stamps `last_updated = 1000000000`,
and the checkpoint did not regress from its default. -/
theorem C4_witness :
    (read_existing_stats (write_stats (apply_batches DEFAULT_STATS [] [] 1000000000))).last_updated
        = 1000000000
      ∧ (read_existing_stats (some DEFAULT_STATS)).last_updated
        ≤ (read_existing_stats (runCycle (some DEFAULT_STATS)
            ⟨FetchOutcome.response 500 none, FetchOutcome.response 404 none, 1000000000⟩)).last_updated :=
  ⟨(C4 (some DEFAULT_STATS) (FetchOutcome.response 500 none) (FetchOutcome.response 404 none)
        1000000000).1 (write_stats (apply_batches DEFAULT_STATS [] [] 1000000000)) rfl,
    (C4 (some DEFAULT_STATS) (FetchOutcome.response 500 none) (FetchOutcome.response 404 none)
        1000000000).2 (by decide)⟩

/-- Claim C5: for each category, if the events folded in contain at
least one event with a present measurement field, then after the fold
the category's min extremum is at most its max extremum. -/
theorem C5 (stats : StatsRecord) (flights checkins : List Event) (now : Timestamp) :
    ((∃ d : Int, some d ∈ flights) →
        (apply_batches stats flights checkins now).min_flight_duration
          ≤ ((apply_batches stats flights checkins now).max_flight_duration : WithTop Int))
      ∧ ((∃ w : Int, some w ∈ checkins) →
        (apply_batches stats flights checkins now).min_luggage_weight
          ≤ ((apply_batches stats flights checkins now).max_luggage_weight : WithTop Int)) := by
  simp only [apply_batches_eq]
  constructor
  · rintro ⟨d, hd⟩
    refine le_trans (foldMin_le_mem flights _ d hd) ?_
    exact_mod_cast mem_le_foldMax flights stats.max_flight_duration d hd
  · rintro ⟨w, hw⟩
    refine le_trans (foldMin_le_mem checkins _ w hw) ?_
    exact_mod_cast mem_le_foldMax checkins stats.max_luggage_weight w hw

/-- Witness for C5: folding flight durations 120 and 90 (one event
missing the field) and luggage weight 42 from the default record leaves
each category with min at most max. -/
theorem C5_witness :
    (apply_batches DEFAULT_STATS [some 120, none, some 90] [some 42] 7).min_flight_duration
        ≤ ((apply_batches DEFAULT_STATS [some 120, none, some 90] [some 42] 7).max_flight_duration :
            WithTop Int)
      ∧ (apply_batches DEFAULT_STATS [some 120, none, some 90] [some 42] 7).min_luggage_weight
        ≤ ((apply_batches DEFAULT_STATS [some 120, none, some 90] [some 42] 7).max_luggage_weight :
            WithTop Int) :=
  ⟨(C5 DEFAULT_STATS [some 120, none, some 90] [some 42] 7).1 ⟨120, by simp⟩,
    (C5 DEFAULT_STATS [some 120, none, some 90] [some 42] 7).2 ⟨42, by simp⟩⟩

/-- Claim C8: a cycle in which both fetches return empty batches changes
nothing but `last_updated`: the persisted record is the starting record
with only the checkpoint replaced by the new window end. -/
theorem C8 (r : StatsRecord) (now : Timestamp) :
    runCycle (some r)
        ⟨FetchOutcome.response 200 (some []), FetchOutcome.response 200 (some []), now⟩
      = some { r with last_updated := now } :=
  rfl

/-- Claim C10: the extrema fold is idempotent under re-delivery: folding
the same two batches a second time leaves all four min/max extrema
exactly as after the first fold. -/
theorem C10 (stats : StatsRecord) (flights checkins : List Event) (now now2 : Timestamp) :
    ((apply_batches (apply_batches stats flights checkins now) flights checkins now2).max_flight_duration
        = (apply_batches stats flights checkins now).max_flight_duration)
      ∧ ((apply_batches (apply_batches stats flights checkins now) flights checkins now2).min_flight_duration
        = (apply_batches stats flights checkins now).min_flight_duration)
      ∧ ((apply_batches (apply_batches stats flights checkins now) flights checkins now2).max_luggage_weight
        = (apply_batches stats flights checkins now).max_luggage_weight)
      ∧ ((apply_batches (apply_batches stats flights checkins now) flights checkins now2).min_luggage_weight
        = (apply_batches stats flights checkins now).min_luggage_weight) := by
  simp only [apply_batches_eq]
  exact ⟨foldMax_idem flights stats.max_flight_duration,
    foldMin_idem flights stats.min_flight_duration,
    foldMax_idem checkins stats.max_luggage_weight,
    foldMin_idem checkins stats.min_luggage_weight⟩

/-- Claim C1 fails as stated: when the flight fetch fails at transport
level (the `httpx.get` call raises) while the check-in fetch would
succeed with a one-event batch, the exception aborts the whole cycle, so
the succeeding category's counter is NOT what it would have been had the
failing fetch contributed nothing (0 instead of 1). -/
theorem C1_counterexample :
    (read_existing_stats (runCycle none
        ⟨FetchOutcome.transportError, FetchOutcome.response 200 (some [some 42]), 5⟩)).num_passenger_checkins
      ≠ (read_existing_stats (runCycle none
        ⟨FetchOutcome.response 200 (some []), FetchOutcome.response 200 (some [some 42]), 5⟩)).num_passenger_checkins := by
  decide

/-- Claim C1 (amended): partial-failure isolation holds for HTTP-level
failures.  If one category's fetch returns a non-200 response while the
other returns 200 with a decodable batch, the cycle completes, the
failing category contributes an empty batch (its counter and extrema
unchanged), and the whole cycle is exactly the cycle in which the failing
fetch had returned an empty batch.  (A transport error or a decode error
instead raises and aborts the entire cycle, updating nothing.) -/
theorem C1_amended (store : Option StatsRecord) (status : Nat) (body : Option (List Event))
    (batch : List Event) (now : Timestamp) (h : status ≠ 200) :
    (runCycle store ⟨FetchOutcome.response status body, FetchOutcome.response 200 (some batch), now⟩
        = runCycle store
          ⟨FetchOutcome.response 200 (some []), FetchOutcome.response 200 (some batch), now⟩
      ∧ (populate_stats store (FetchOutcome.response status body)
          (FetchOutcome.response 200 (some batch)) now).isOk = true
      ∧ (read_existing_stats (runCycle store
          ⟨FetchOutcome.response status body, FetchOutcome.response 200 (some batch), now⟩)).num_flight_schedules
        = (read_existing_stats store).num_flight_schedules
      ∧ (read_existing_stats (runCycle store
          ⟨FetchOutcome.response status body, FetchOutcome.response 200 (some batch), now⟩)).max_flight_duration
        = (read_existing_stats store).max_flight_duration
      ∧ (read_existing_stats (runCycle store
          ⟨FetchOutcome.response status body, FetchOutcome.response 200 (some batch), now⟩)).min_flight_duration
        = (read_existing_stats store).min_flight_duration)
    ∧ (runCycle store ⟨FetchOutcome.response 200 (some batch), FetchOutcome.response status body, now⟩
        = runCycle store
          ⟨FetchOutcome.response 200 (some batch), FetchOutcome.response 200 (some []), now⟩
      ∧ (read_existing_stats (runCycle store
          ⟨FetchOutcome.response 200 (some batch), FetchOutcome.response status body, now⟩)).num_passenger_checkins
        = (read_existing_stats store).num_passenger_checkins
      ∧ (read_existing_stats (runCycle store
          ⟨FetchOutcome.response 200 (some batch), FetchOutcome.response status body, now⟩)).max_luggage_weight
        = (read_existing_stats store).max_luggage_weight
      ∧ (read_existing_stats (runCycle store
          ⟨FetchOutcome.response 200 (some batch), FetchOutcome.response status body, now⟩)).min_luggage_weight
        = (read_existing_stats store).min_luggage_weight) := by
  have hg : getEvents (FetchOutcome.response status body) = Except.ok [] := by
    simp [getEvents, h]
  have hok : ∀ l : List Event, getEvents (FetchOutcome.response 200 (some l)) = Except.ok l :=
    fun _ => rfl
  have h1 : runCycle store
      ⟨FetchOutcome.response status body, FetchOutcome.response 200 (some batch), now⟩
        = some (apply_batches (read_existing_stats store) [] batch now) := by
    simp [runCycle, populate_stats, hg, hok, write_stats]
  have h2 : runCycle store
      ⟨FetchOutcome.response 200 (some batch), FetchOutcome.response status body, now⟩
        = some (apply_batches (read_existing_stats store) batch [] now) := by
    simp [runCycle, populate_stats, hg, hok, write_stats]
  refine ⟨⟨?_, ?_, ?_, ?_, ?_⟩, ⟨?_, ?_, ?_, ?_⟩⟩
  · rw [h1]; rfl
  · simp [populate_stats, hg, hok, write_stats, Except.isOk, Except.toBool]
  · rw [h1]; simp [read_existing_stats, apply_batches_eq]
  · rw [h1]; simp [read_existing_stats, apply_batches_eq, foldMax]
  · rw [h1]; simp [read_existing_stats, apply_batches_eq, foldMin]
  · rw [h2]; rfl
  · rw [h2]; simp [read_existing_stats, apply_batches_eq]
  · rw [h2]; simp [read_existing_stats, apply_batches_eq, foldMax]
  · rw [h2]; simp [read_existing_stats, apply_batches_eq, foldMin]

/-- Witness for the amended C1: a 500 flight response alongside a
successful one-event check-in batch gives exactly the cycle in which the
flight fetch returned an empty batch. -/
theorem C1_witness :
    runCycle none
        ⟨FetchOutcome.response 500 none, FetchOutcome.response 200 (some [some 42]), 5⟩
      = runCycle none
        ⟨FetchOutcome.response 200 (some []), FetchOutcome.response 200 (some [some 42]), 5⟩ :=
  (C1_amended none 500 none [some 42] 5 (by decide)).1.1

/-- Claim C2 fails as stated: `populate_stats` does raise to its caller.
A 200 response whose body does not decode, or a transport-level failure,
propagates as an exception and no record is persisted for that cycle. -/
theorem C2_counterexample :
    populate_stats none (FetchOutcome.response 200 none) (FetchOutcome.response 200 (some [])) 5
        = Except.error ()
      ∧ populate_stats none FetchOutcome.transportError (FetchOutcome.response 200 (some [])) 5
        = Except.error () :=
  ⟨rfl, rfl⟩

/-- Claim C2 (amended): `populate_stats` absorbs non-2xx HTTP responses
and still runs to completion, persisting an updated record, provided
both fetches return HTTP responses and any 200 response carries a
decodable body; transport-level failures and undecodable 200 bodies
instead raise to the caller. -/
theorem C2_amended (store : Option StatsRecord) (fstatus cstatus : Nat)
    (fbody cbody : Option (List Event)) (now : Timestamp)
    (hf : fstatus = 200 → fbody.isSome) (hc : cstatus = 200 → cbody.isSome) :
    ∃ r : StatsRecord,
      populate_stats store (FetchOutcome.response fstatus fbody)
          (FetchOutcome.response cstatus cbody) now
        = Except.ok (some r) := by
  have h1 : ∃ flight_events, getEvents (FetchOutcome.response fstatus fbody)
      = Except.ok flight_events := by
    by_cases hf200 : fstatus = 200
    · obtain ⟨l, hl⟩ := Option.isSome_iff_exists.mp (hf hf200)
      exact ⟨l, by simp [getEvents, hf200, hl]⟩
    · exact ⟨[], by simp [getEvents, hf200]⟩
  have h2 : ∃ checkin_events, getEvents (FetchOutcome.response cstatus cbody)
      = Except.ok checkin_events := by
    by_cases hc200 : cstatus = 200
    · obtain ⟨l, hl⟩ := Option.isSome_iff_exists.mp (hc hc200)
      exact ⟨l, by simp [getEvents, hc200, hl]⟩
    · exact ⟨[], by simp [getEvents, hc200]⟩
  obtain ⟨flight_events, hfe⟩ := h1
  obtain ⟨checkin_events, hce⟩ := h2
  exact ⟨apply_batches (read_existing_stats store) flight_events checkin_events now,
    by simp [populate_stats, hfe, hce, write_stats]⟩

/-- Witness for the amended C2: a 404 flight response with no decodable
body next to a successful check-in fetch still yields a completed cycle
with a persisted record. -/
theorem C2_witness :
    ∃ r : StatsRecord,
      populate_stats none (FetchOutcome.response 404 none)
          (FetchOutcome.response 200 (some [some 3])) 9
        = Except.ok (some r) :=
  C2_amended none 404 200 none (some [some 3]) 9 (by decide) (by decide)

/-- Claim C6 fails as stated: on a fresh store the load returns the
defaults, but the two max extrema default to `0`, not to a sentinel
infinity: the first observed measurement does not replace them
unconditionally (folding a single flight event with duration `-5` leaves
`max_flight_duration` at `0`, not `-5`). -/
theorem C6_counterexample :
    (read_existing_stats none).max_flight_duration = 0
      ∧ ¬ (apply_batches (read_existing_stats none) [some (-5)] [] 3).max_flight_duration = -5 := by
  decide

/-- Claim C6 (amended): when no record has ever been persisted the load
returns the default record: both counters zero, the two min extrema at
the positive-infinity sentinel, the two max extrema at `0` (not at an
infinity), and `last_updated` at the fixed epoch 2000-01-01 00:00:00;
otherwise it returns the persisted record. -/
theorem C6_amended :
    read_existing_stats none =
        { num_flight_schedules := 0
          num_passenger_checkins := 0
          max_luggage_weight := 0
          min_luggage_weight := ⊤
          max_flight_duration := 0
          min_flight_duration := ⊤
          last_updated := epoch2000 }
      ∧ ∀ r : StatsRecord, read_existing_stats (some r) = r :=
  ⟨rfl, fun _ => rfl⟩

/-- Claim C7 fails as stated: a 201 response (a 2xx status) carrying a
decodable one-event batch is treated as a failure, because the code
tests `status_code == 200` exactly; the batch is not folded in (the
flight counter stays 0 where the claim requires 1). -/
theorem C7_counterexample :
    ¬ (read_existing_stats (runCycle none
        ⟨FetchOutcome.response 201 (some [some 7]), FetchOutcome.response 200 (some []), 3⟩)).num_flight_schedules
      = 1 := by
  decide

/-- Claim C7 (amended): a fetch succeeds exactly on status 200: a 200
response with a decodable body yields the decoded batch, and that batch
is the one folded into the statistics for its category, while any
response with a status other than 200 (including other 2xx statuses)
contributes the empty batch. -/
theorem C7_amended (store : Option StatsRecord) (batch cbatch : List Event) (now : Timestamp)
    (status : Nat) (body : Option (List Event)) (h : status ≠ 200) :
    runCycle store
        ⟨FetchOutcome.response 200 (some batch), FetchOutcome.response 200 (some cbatch), now⟩
      = some (apply_batches (read_existing_stats store) batch cbatch now)
    ∧ getEvents (FetchOutcome.response status body) = Except.ok [] := by
  constructor
  · rfl
  · simp [getEvents, h]

/-- Witness for the amended C7: batches of one flight event and no
check-in events are folded verbatim, and a 201 response with a decodable
body still contributes the empty batch. -/
theorem C7_witness :
    runCycle none
        ⟨FetchOutcome.response 200 (some [some 7]), FetchOutcome.response 200 (some []), 3⟩
      = some (apply_batches (read_existing_stats none) [some 7] [] 3)
    ∧ getEvents (FetchOutcome.response 201 (some [some 9])) = Except.ok [] :=
  C7_amended none [some 7] [] 3 201 (some [some 9]) (by decide)

end App
